import Mathlib

/-!
Shallow embedding of the workflow-event report fan-out publisher
(`publish-reports` lambda) and of the `executions` table migration.

The lambda's own source is not in the repository snapshot (only its test
suite, `packages/api/tests/lambdas/publish-reports/test-index.js`, is), so
the extractor, record builders, topic publisher and fan-out orchestrator
are modelled from the spec (sections 3, 4, 6, 7); the migration
`lambdas/db-migration/src/migrations/20201014105045_create_executions_table.ts`
is translated from its source.

JSON strings on the wire are represented by their parse trees: the
runtime's JSON.stringify / JSON.parse pair is the external JSON library,
assumed to be an exact inverse pair, so a serialized record is identified
with the `Json` value it parses back to.
-/

/-- Structured data produced by deserializing a JSON document: the shape a
workflow message, a domain record, or a transport envelope takes after
JSON.parse. -/
inductive Json where
  | null
  | bool (b : Bool)
  | num (n : Int)
  | str (s : String)
  | arr (items : List Json)
  | obj (fields : List (String × Json))

instance : Inhabited Json := ⟨Json.null⟩

/-- First-match lookup of a key in a JSON object's field list, mirroring
JavaScript property access on a parsed object. -/
def lookupField : List (String × Json) → String → Option Json
  | [], _ => none
  | (k, v) :: rest, key => if k = key then some v else lookupField rest key

/-- Duck-typed field access: `msg.payload` in JavaScript is `none` when the
value is not an object or the field is absent. -/
def Json.getField : Json → String → Option Json
  | .obj fields, key => lookupField fields key
  | _, _ => none

/-- Read a JSON value as a string, `none` when it is not a string. -/
def Json.asString : Json → Option String
  | .str s => some s
  | _ => none

/-- Modelled from the spec: the error taxonomy of section 7 (the lambda's
source is not in the snapshot). -/
inductive ErrorKind where
  | MalformedMessage
  | InvalidExecutionContext
  | InvalidPdrRecord
  | PublishFailure
deriving DecidableEq, Repr

/-- The record types the fan-out publisher derives from one event. -/
inductive RecordType where
  | execution
  | pdr
  | granule
deriving DecidableEq, Repr

/-- The raw `detail.input` payload of the triggering event: either a string
that deserializes to structured data, or one that does not. -/
inductive RawInput where
  | json (j : Json)
  | malformed (s : String)

/-- The triggering execution-status-change notification,
`{ detail: { status, input } }` (spec section 6). -/
structure WorkflowExecutionEvent where
  status : String
  input : RawInput

/-- Modelled from the spec: `extract(event) -> WorkflowMessage` (section 4.1).
If `event.input` does not deserialize, extraction fails with
`MalformedMessage`; otherwise it yields the parsed workflow message. -/
def extract (event : WorkflowExecutionEvent) : Except ErrorKind Json :=
  match event.input with
  | .json j => .ok j
  | .malformed _ => .error .MalformedMessage

/-- Split a character list on a separator character; structural recursion so
the kernel can evaluate it on literals. -/
def splitCh (c : Char) : List Char → List (List Char)
  | [] => [[]]
  | x :: xs =>
    let rest := splitCh c xs
    if x = c then [] :: rest
    else
      match rest with
      | [] => [[x]]
      | r :: rs => (x :: r) :: rs

/-- Join character-list pieces with a separator character. -/
def joinCh (c : Char) : List (List Char) → List Char
  | [] => []
  | [p] => p
  | p :: ps => p ++ c :: joinCh c ps

/-- Modelled from the spec: ARN derivation of section 4.2 — the execution ARN
is the composition of the state-machine identifier and the execution name in
the external workflow engine's format: the `stateMachine` component of the
state-machine ARN becomes `execution` and the execution name is appended as a
final colon-separated component. -/
def getExecutionArn (stateMachineArn executionName : String) : String :=
  String.mk (joinCh ':'
    (((splitCh ':' stateMachineArn.data).map
      (fun p => if p = "stateMachine".data then "execution".data else p))
      ++ [executionName.data]))

/-- The external workflow engine's ARN composition rule, stated from the
spec's words (section 8): an execution ARN is
`arn:aws:states:<region>:<account>:execution:<machine-name>:<execution-name>`. -/
def engineExecutionArnRule (region account machineName executionName : String) : String :=
  "arn:aws:states:" ++ region ++ ":" ++ account ++ ":execution:"
    ++ machineName ++ ":" ++ executionName

/-- The `cumulus_meta.state_machine` field of a workflow message, when
present as a string. -/
def stateMachineOf (msg : Json) : Option String :=
  ((msg.getField "cumulus_meta").bind (fun cm => cm.getField "state_machine")).bind Json.asString

/-- The `cumulus_meta.execution_name` field of a workflow message, when
present as a string. -/
def executionNameOf (msg : Json) : Option String :=
  ((msg.getField "cumulus_meta").bind (fun cm => cm.getField "execution_name")).bind Json.asString

/-- Modelled from the spec: the execution record of section 3 — ARN derived
from `cumulus_meta`, status, and optional collection / async-operation /
parent-execution references that become null when absent. -/
structure ExecutionRecord where
  arn : String
  status : Option String
  collectionRef : Option Json
  asyncOperationRef : Option String
  parentExecutionRef : Option String

/-- Modelled from the spec: `buildExecutionRecord` (section 4.2). Produces a
record whenever `cumulus_meta.execution_name` and `cumulus_meta.state_machine`
are present; fails with `InvalidExecutionContext` when either is missing.
Optional references are taken from the message and become `none` when
absent. -/
def buildExecutionRecord (msg : Json) : Except ErrorKind ExecutionRecord :=
  match stateMachineOf msg, executionNameOf msg with
  | some sm, some en =>
    .ok
      { arn := getExecutionArn sm en
        status := ((msg.getField "meta").bind (fun m => m.getField "status")).bind Json.asString
        collectionRef := (msg.getField "meta").bind (fun m => m.getField "collection")
        asyncOperationRef :=
          ((msg.getField "cumulus_meta").bind
            (fun cm => cm.getField "asyncOperationId")).bind Json.asString
        parentExecutionRef :=
          ((msg.getField "cumulus_meta").bind
            (fun cm => cm.getField "parentExecutionArn")).bind Json.asString }
  | _, _ => .error .InvalidExecutionContext

/-- Modelled from the spec: the PDR record of sections 3 and 4.3 — carries at
least `pdrName`, an execution reference, and provider/collection context from
`meta`. -/
structure PdrRecord where
  pdrName : String
  execution : Option String
  provider : Option Json
  collection : Option Json

/-- The `payload.pdr` object of a workflow message, when present. -/
def pdrOfMessage (msg : Json) : Option Json :=
  (msg.getField "payload").bind (fun p => p.getField "pdr")

/-- The `name` field of a `payload.pdr` object, when present as a string. -/
def pdrNameValue (pdr : Json) : Option String :=
  (pdr.getField "name").bind Json.asString

/-- Modelled from the spec: `buildPdrRecord` (section 4.3). `payload.pdr`
absent yields "absent" (`ok none`); `payload.pdr` present with `name` missing
or empty fails with `InvalidPdrRecord`; otherwise a `PdrRecord` is built. -/
def buildPdrRecord (msg : Json) : Except ErrorKind (Option PdrRecord) :=
  match pdrOfMessage msg with
  | none => .ok none
  | some pdr =>
    match pdrNameValue pdr with
    | none => .error .InvalidPdrRecord
    | some name =>
      if name = "" then .error .InvalidPdrRecord
      else
        .ok (some
          { pdrName := name
            execution :=
              match stateMachineOf msg, executionNameOf msg with
              | some sm, some en => some (getExecutionArn sm en)
              | _, _ => none
            provider := (msg.getField "meta").bind (fun m => m.getField "provider")
            collection := (msg.getField "meta").bind (fun m => m.getField "collection") })

/-- Modelled from the spec: granule candidate records (section 3) — each
entry of `payload.granules` becomes one candidate record; absence of the
list means no granule records. -/
def buildGranuleRecords (msg : Json) : List Json :=
  match (msg.getField "payload").bind (fun p => p.getField "granules") with
  | some (.arr gs) => gs
  | _ => []

/-- Modelled from the spec: the ephemeral result of one publish attempt,
`{recordType, succeeded, error}` (section 3). -/
structure PublishOutcome where
  recordType : RecordType
  succeeded : Bool
  error : Option ErrorKind
deriving DecidableEq, Repr

/-- The terminal state of one record's branch in the orchestrator's
per-invocation state machine (section 4.4): skipped (not applicable), build
failed (caught), no topic binding configured, or a publish attempt with its
outcome. -/
inductive RecordResult where
  | skipped
  | buildFailed (e : ErrorKind)
  | notConfigured
  | published (outcome : PublishOutcome)
deriving DecidableEq, Repr

/-- Modelled from the spec: externally-configured topic bindings, one
optional binding per record type (section 4.5). -/
structure TopicConfig where
  executionTopic : Option String
  pdrTopic : Option String
  granuleTopic : Option String

/-- Topic-for-type resolution from the configured bindings. -/
def topicFor (cfg : TopicConfig) : RecordType → Option String
  | .execution => cfg.executionTopic
  | .pdr => cfg.pdrTopic
  | .granule => cfg.granuleTopic

/-- Modelled from the spec: the wire envelope `{ Message: <JSON string of the
domain record> }` (section 6). The serialized record string is represented by
its parse tree, so the `Message` field holds the record's `Json` value. -/
def snsEnvelope (record : Json) : Json :=
  .obj [("Message", record)]

/-- Modelled from the spec: `publish(record, topicFor(type))` (section 4.5).
No binding for the type means the type is silently not published; a transport
fault yields a failed `PublishOutcome` without raising; otherwise the
enveloped record is delivered to the topic. `transportFails` is the
transport-fault model (which topics' publishes fail). Returns the branch
result and the list of messages that reached the topic. -/
def publishRecord (cfg : TopicConfig) (transportFails : RecordType → Bool)
    (rt : RecordType) (record : Json) : RecordResult × List Json :=
  match topicFor cfg rt with
  | none => (.notConfigured, [])
  | some _ =>
    if transportFails rt then
      (.published { recordType := rt, succeeded := false, error := some .PublishFailure }, [])
    else
      (.published { recordType := rt, succeeded := true, error := none }, [snsEnvelope record])

/-- JSON serialization of an execution record (absent optional references
become null). -/
def ExecutionRecord.toJson (r : ExecutionRecord) : Json :=
  .obj
    [ ("arn", .str r.arn)
    , ("status", match r.status with | some s => .str s | none => .null)
    , ("collection", match r.collectionRef with | some c => c | none => .null)
    , ("asyncOperationId", match r.asyncOperationRef with | some a => .str a | none => .null)
    , ("parentArn", match r.parentExecutionRef with | some p => .str p | none => .null) ]

/-- JSON serialization of a PDR record. As with JSON.stringify, fields whose
value is undefined are omitted from the serialized object. -/
def PdrRecord.toJson (r : PdrRecord) : Json :=
  .obj
    ([("pdrName", Json.str r.pdrName)]
      ++ (match r.execution with | some e => [("execution", Json.str e)] | none => [])
      ++ (match r.provider with | some p => [("provider", p)] | none => [])
      ++ (match r.collection with | some c => [("collection", c)] | none => []))

/-- Deserialization of a PDR record from its JSON form: the inverse read the
downstream consumer performs on the `Message` payload. -/
def pdrRecordOfJson (j : Json) : Option PdrRecord :=
  match (j.getField "pdrName").bind Json.asString with
  | none => none
  | some name =>
    some
      { pdrName := name
        execution := (j.getField "execution").bind Json.asString
        provider := j.getField "provider"
        collection := j.getField "collection" }

/-- What the test harness does with a received message: deserialize the body
(the envelope), deserialize its `Message` field (the record), and read
`pdrName`. -/
def decodePdrName (body : Json) : Option String :=
  ((body.getField "Message").bind pdrRecordOfJson).map PdrRecord.pdrName

/-- Modelled from the spec: `handlePdrMessage` — the PDR branch of the
orchestrator (section 4.4 steps 2-4): build, catching a builder failure at
this record's scope; skip when not applicable; publish when built. -/
def handlePdrMessage (cfg : TopicConfig) (transportFails : RecordType → Bool)
    (msg : Json) : RecordResult × List Json :=
  match buildPdrRecord msg with
  | .error e => (.buildFailed e, [])
  | .ok none => (.skipped, [])
  | .ok (some r) => publishRecord cfg transportFails .pdr r.toJson

/-- Modelled from the spec: the execution branch of the orchestrator —
always attempted, builder failure caught at this record's scope. -/
def handleExecutionMessage (cfg : TopicConfig) (transportFails : RecordType → Bool)
    (msg : Json) : RecordResult × List Json :=
  match buildExecutionRecord msg with
  | .error e => (.buildFailed e, [])
  | .ok r => publishRecord cfg transportFails .execution r.toJson

/-- Modelled from the spec: the granule branch of the orchestrator — one
independent publish attempt per candidate record. -/
def handleGranuleMessages (cfg : TopicConfig) (transportFails : RecordType → Bool)
    (msg : Json) : List RecordResult × List Json :=
  let attempts := (buildGranuleRecords msg).map (publishRecord cfg transportFails .granule)
  (attempts.map Prod.fst, (attempts.map Prod.snd).flatten)

/-- The outcome of one whole invocation: a terminal branch state for every
record type, and the messages that reached each type's topic. -/
structure InvocationResult where
  executionResult : RecordResult
  pdrResult : RecordResult
  granuleResults : List RecordResult
  executionMessages : List Json
  pdrMessages : List Json
  granuleMessages : List Json

/-- Modelled from the spec: `publishReportSnsMessages` — given the parsed
workflow message, independently attempt every record type's build-then-publish
branch (section 4.4 steps 2-5); total, so record-level failures never raise. -/
def publishReportSnsMessages (cfg : TopicConfig) (transportFails : RecordType → Bool)
    (msg : Json) : InvocationResult :=
  let ex := handleExecutionMessage cfg transportFails msg
  let pd := handlePdrMessage cfg transportFails msg
  let gr := handleGranuleMessages cfg transportFails msg
  { executionResult := ex.1
    pdrResult := pd.1
    granuleResults := gr.1
    executionMessages := ex.2
    pdrMessages := pd.2
    granuleMessages := gr.2 }

/-- Modelled from the spec: `handler(event)` — the fan-out orchestrator entry
point (section 4.4): extract the workflow message, failing fatally only when
extraction fails, then fan out to every record type. -/
def handler (cfg : TopicConfig) (transportFails : RecordType → Bool)
    (event : WorkflowExecutionEvent) : Except ErrorKind InvocationResult :=
  match extract event with
  | .error e => .error e
  | .ok msg => .ok (publishReportSnsMessages cfg transportFails msg)

/-!
The `executions` table migration, translated from
`lambdas/db-migration/src/migrations/20201014105045_create_executions_table.ts`.
-/

/-- Column types used by the migration's table builder. -/
inductive ColType where
  | increments
  | text
  | integer
  | timestamp
deriving DecidableEq, Repr

/-- One column definition: name, type, NOT NULL flag, and an optional foreign
key `(referenced column, referenced table)`. Knex columns are nullable unless
`.notNullable()` is called. -/
structure ColumnDef where
  name : String
  type : ColType
  notNullable : Bool
  references : Option (String × String)
deriving DecidableEq, Repr

/-- A table schema: its columns and its uniqueness constraints (each a list
of column names). -/
structure TableSchema where
  name : String
  columns : List ColumnDef
  uniques : List (List String)
deriving DecidableEq, Repr

/-- The `executions` table created by migration
`20201014105045_create_executions_table.ts`: an auto-incrementing primary
key, a NOT NULL `arn`, three nullable integer foreign keys (to
`asyncOperations`, `collections`, and `executions` itself), the knex
timestamp pair (`timestamps(false, true)` adds NOT NULL columns defaulting
to now), and a uniqueness constraint on `arn`. -/
def executionsTable : TableSchema :=
  { name := "executions"
    columns :=
      [ { name := "cumulusId", type := .increments, notNullable := true, references := none }
      , { name := "arn", type := .text, notNullable := true, references := none }
      , { name := "asyncOperationsCumulusId", type := .integer, notNullable := false
        , references := some ("cumulusId", "asyncOperations") }
      , { name := "collectionCumulusId", type := .integer, notNullable := false
        , references := some ("cumulusId", "collections") }
      , { name := "parentCumulusId", type := .integer, notNullable := false
        , references := some ("cumulusId", "executions") }
      , { name := "created_at", type := .timestamp, notNullable := true, references := none }
      , { name := "updated_at", type := .timestamp, notNullable := true, references := none } ]
    uniques := [["arn"]] }

/-- A SQL value held in a row cell. -/
inductive SqlValue where
  | int (n : Nat)
  | text (s : String)
deriving DecidableEq, Repr

/-- A row as the database sees it: each column name maps to a value or to
NULL (`none`); named columns only. -/
structure SqlRow where
  cells : List (String × Option SqlValue)
deriving DecidableEq, Repr

/-- Read one cell of a row; a column not present in the row reads as NULL. -/
def SqlRow.get (r : SqlRow) (c : String) : Option SqlValue :=
  match r.cells.lookup c with
  | some v => v
  | none => none

/-- NOT NULL check: every column the schema marks `notNullable` holds a
value in this row. -/
def rowRespectsNotNull (t : TableSchema) (r : SqlRow) : Bool :=
  t.columns.all (fun c => !c.notNullable || (r.get c.name).isSome)

/-- Foreign-key check: every non-NULL value of a referencing column appears
in the referenced column of some row of the referenced table, `db` mapping a
table name to its rows. -/
def rowRespectsFks (t : TableSchema) (db : String → List SqlRow) (r : SqlRow) : Bool :=
  t.columns.all (fun c =>
    match c.references, r.get c.name with
    | some (refCol, refTable), some v =>
      (db refTable).any (fun r2 => r2.get refCol = some v)
    | _, _ => true)

/-- No two rows of the list agree on the given key. -/
def pairwiseDistinctOn (key : SqlRow → List (Option SqlValue)) : List SqlRow → Bool
  | [] => true
  | r :: rs => rs.all (fun r2 => key r ≠ key r2) && pairwiseDistinctOn key rs

/-- Uniqueness check: no two rows of the table agree on every column of a
declared uniqueness constraint. -/
def tableRespectsUniques (t : TableSchema) (rows : List SqlRow) : Bool :=
  t.uniques.all (fun u => pairwiseDistinctOn (fun r => u.map r.get) rows)

/-- A population of the `executions` table that satisfies all constraints the
migration declares, with `db` supplying the referenced tables' rows (`db`
must agree with `rows` on `"executions"`, since `parentCumulusId` references
the table itself). -/
def validExecutionsTable (db : String → List SqlRow) (rows : List SqlRow) : Prop :=
  db "executions" = rows ∧
    rows.all (rowRespectsNotNull executionsTable) = true ∧
    rows.all (rowRespectsFks executionsTable db) = true ∧
    tableRespectsUniques executionsTable rows = true

/-- Look up a column of a table schema by name. -/
def SchemaColumn (t : TableSchema) (n : String) : Option ColumnDef :=
  t.columns.find? (fun c => c.name == n)

/-!
Concrete fixtures mirroring the test suite's `cumulusMessage`,
`executionEvent`, and topic/queue configuration.
-/

/-- The state machine ARN used by the test fixture. -/
def testStateMachine : String :=
  "arn:aws:states:us-east-1:111122223333:stateMachine:HelloWorld-StateMachine"

/-- The workflow message the test suite builds (with a fixed PDR name in
place of the test's random string). -/
def testCumulusMessage : Json :=
  .obj
    [ ("meta", .obj
        [ ("provider", .obj
            [ ("protocol", .str "https")
            , ("host", .str "example.com")
            , ("port", .num 80) ]) ])
    , ("cumulus_meta", .obj
        [ ("execution_name", .str "exec-123")
        , ("state_machine", .str testStateMachine) ])
    , ("payload", .obj [("pdr", .obj [("name", .str "pdr-0001")])]) ]

/-- The triggering event the test suite builds around the workflow
message. -/
def testExecutionEvent : WorkflowExecutionEvent :=
  { status := "RUNNING", input := .json testCumulusMessage }

/-- A topic binding for every record type, as the test environment
configures. -/
def testTopicConfig : TopicConfig :=
  { executionTopic := some "execution-topic"
    pdrTopic := some "pdr-topic"
    granuleTopic := some "granule-topic" }

/-- A transport in which no publish fails. -/
def healthyTransport : RecordType → Bool := fun _ => false

/-- A transport in which every publish fails, as the tests force by
substituting a rejecting `publishSnsMessage`. -/
def faultyTransport : RecordType → Bool := fun _ => true

/-- Serializing a PDR record and reading it back yields the record. -/
theorem pdrRecord_roundTrip (r : PdrRecord) : pdrRecordOfJson r.toJson = some r := by
  rcases r with ⟨name, exec, prov, coll⟩
  cases exec <;> cases prov <;> cases coll <;>
    simp [PdrRecord.toJson, pdrRecordOfJson, Json.getField, lookupField, Json.asString]

/-- On an event whose input deserializes, the handler is the fan-out of the
parsed message. -/
theorem handler_on_json (cfg : TopicConfig) (tf : RecordType → Bool)
    (event : WorkflowExecutionEvent) (msg : Json) (h : event.input = .json msg) :
    handler cfg tf event = .ok (publishReportSnsMessages cfg tf msg) := by
  simp [handler, extract, h]

/-- Everything one invocation delivered to any topic: nothing when the
invocation failed fatally. -/
def allPublishedMessages : Except ErrorKind InvocationResult → List Json
  | .error _ => []
  | .ok res => res.executionMessages ++ res.pdrMessages ++ res.granuleMessages

/-- The test message with `payload.pdr` present but its `name` deleted, as
in the builder-isolation test. -/
def testNamelessPdrMessage : Json :=
  .obj
    [ ("meta", .obj
        [ ("provider", .obj
            [ ("protocol", .str "https")
            , ("host", .str "example.com")
            , ("port", .num 80) ]) ])
    , ("cumulus_meta", .obj
        [ ("execution_name", .str "exec-123")
        , ("state_machine", .str testStateMachine) ])
    , ("payload", .obj [("pdr", .obj [])]) ]

/-- An event whose input does not deserialize as structured data. -/
def testMalformedEvent : WorkflowExecutionEvent :=
  { status := "RUNNING", input := .malformed "not json" }

/-- C1: for every event whose embedded workflow message extracts
successfully, the handler returns successfully once every record type has
been attempted, for every message content and every transport-fault pattern;
each record type's branch is a function of the message alone, so one
record's build or publish failure never prevents the attempts on the other
records. -/
theorem handler_isolates_record_failures (cfg : TopicConfig) (tf : RecordType → Bool)
    (event : WorkflowExecutionEvent) (msg : Json) (h : extract event = .ok msg) :
    handler cfg tf event = .ok
      { executionResult := (handleExecutionMessage cfg tf msg).1
        pdrResult := (handlePdrMessage cfg tf msg).1
        granuleResults := (handleGranuleMessages cfg tf msg).1
        executionMessages := (handleExecutionMessage cfg tf msg).2
        pdrMessages := (handlePdrMessage cfg tf msg).2
        granuleMessages := (handleGranuleMessages cfg tf msg).2 } := by
  cases hi : event.input with
  | json j =>
    have hj : j = msg := by simpa [extract, hi] using h
    subst hj
    rw [handler_on_json cfg tf event j hi]
    rfl
  | malformed s => simp [extract, hi] at h

/-- The C1 theorem at the fixture where the PDR build fails (no name) and
every publish fails: the handler still returns successfully. -/
theorem handler_isolates_record_failures_witness :
    handler testTopicConfig faultyTransport
        { status := "RUNNING", input := .json testNamelessPdrMessage } = .ok
      { executionResult :=
          (handleExecutionMessage testTopicConfig faultyTransport testNamelessPdrMessage).1
        pdrResult := (handlePdrMessage testTopicConfig faultyTransport testNamelessPdrMessage).1
        granuleResults :=
          (handleGranuleMessages testTopicConfig faultyTransport testNamelessPdrMessage).1
        executionMessages :=
          (handleExecutionMessage testTopicConfig faultyTransport testNamelessPdrMessage).2
        pdrMessages := (handlePdrMessage testTopicConfig faultyTransport testNamelessPdrMessage).2
        granuleMessages :=
          (handleGranuleMessages testTopicConfig faultyTransport testNamelessPdrMessage).2 } :=
  handler_isolates_record_failures testTopicConfig faultyTransport
    { status := "RUNNING", input := .json testNamelessPdrMessage } testNamelessPdrMessage rfl

/-- C6: an input that does not deserialize makes extraction fail with
`MalformedMessage`, the handler fails fatally, and nothing is published to
any topic; moreover this is the only case in which the caller sees a
failure. -/
theorem handler_malformed_fatal (cfg : TopicConfig) (tf : RecordType → Bool) :
    (∀ event s, event.input = .malformed s →
      handler cfg tf event = .error .MalformedMessage ∧
        allPublishedMessages (handler cfg tf event) = []) ∧
    (∀ event e, handler cfg tf event = .error e →
      e = .MalformedMessage ∧ ∃ s, event.input = .malformed s) := by
  constructor
  · intro event s h
    simp [handler, extract, h, allPublishedMessages]
  · intro event e h
    cases hi : event.input with
    | json j => simp [handler, extract, hi] at h
    | malformed s =>
      simp [handler, extract, hi] at h
      exact ⟨h.symm, s, rfl⟩

/-- The C6 theorem at a concrete malformed event. -/
theorem handler_malformed_fatal_witness :
    handler testTopicConfig healthyTransport testMalformedEvent = .error .MalformedMessage ∧
      allPublishedMessages (handler testTopicConfig healthyTransport testMalformedEvent) = [] :=
  (handler_malformed_fatal testTopicConfig healthyTransport).1 testMalformedEvent "not json" rfl

/-- Decoding a received body that wraps a serialized PDR record yields the
record's name. -/
theorem decodePdrName_envelope (r : PdrRecord) :
    decodePdrName (snsEnvelope r.toJson) = some r.pdrName := by
  simp [decodePdrName, snsEnvelope, Json.getField, lookupField, pdrRecord_roundTrip r]

/-- The test message with `payload` present but no `pdr` key, as in the
no-PDR test. -/
def testNoPdrMessage : Json :=
  .obj
    [ ("meta", .obj
        [ ("provider", .obj
            [ ("protocol", .str "https")
            , ("host", .str "example.com")
            , ("port", .num 80) ]) ])
    , ("cumulus_meta", .obj
        [ ("execution_name", .str "exec-123")
        , ("state_machine", .str testStateMachine) ])
    , ("payload", .obj []) ]

/-- The PDR record the builder derives from the test message. -/
def testBuiltPdrRecord : PdrRecord :=
  { pdrName := "pdr-0001"
    execution := some (getExecutionArn testStateMachine "exec-123")
    provider := some (.obj
      [ ("protocol", .str "https")
      , ("host", .str "example.com")
      , ("port", .num 80) ])
    collection := none }

/-- C2: for every well-formed event whose workflow message carries
`payload.pdr` with a non-empty name, the handler publishes exactly one
message to the PDR topic, and the `pdrName` decoded from that message equals
the input PDR name. -/
theorem handler_publishes_single_pdr (cfg : TopicConfig) (tf : RecordType → Bool)
    (event : WorkflowExecutionEvent) (msg pdr : Json) (name t : String)
    (hev : event.input = .json msg)
    (hpdr : pdrOfMessage msg = some pdr)
    (hname : pdrNameValue pdr = some name)
    (hne : name ≠ "")
    (ht : cfg.pdrTopic = some t)
    (htf : tf .pdr = false) :
    ∃ res, handler cfg tf event = .ok res ∧
      res.pdrMessages.length = 1 ∧
      res.pdrMessages.head?.bind decodePdrName = some name := by
  have hbuild : buildPdrRecord msg = .ok (some
      { pdrName := name
        execution :=
          match stateMachineOf msg, executionNameOf msg with
          | some sm, some en => some (getExecutionArn sm en)
          | _, _ => none
        provider := (msg.getField "meta").bind (fun m => m.getField "provider")
        collection := (msg.getField "meta").bind (fun m => m.getField "collection") }) := by
    simp [buildPdrRecord, hpdr, hname, hne]
  have hpub : (handlePdrMessage cfg tf msg).2 =
      [snsEnvelope (PdrRecord.toJson
        { pdrName := name
          execution :=
            match stateMachineOf msg, executionNameOf msg with
            | some sm, some en => some (getExecutionArn sm en)
            | _, _ => none
          provider := (msg.getField "meta").bind (fun m => m.getField "provider")
          collection := (msg.getField "meta").bind (fun m => m.getField "collection") })] := by
    simp [handlePdrMessage, hbuild, publishRecord, topicFor, ht, htf]
  refine ⟨publishReportSnsMessages cfg tf msg, handler_on_json cfg tf event msg hev, ?_, ?_⟩
  · show (handlePdrMessage cfg tf msg).2.length = 1
    rw [hpub]
    rfl
  · show ((handlePdrMessage cfg tf msg).2.head?.bind decodePdrName) = some name
    rw [hpub]
    simp [decodePdrName_envelope]

/-- The C2 theorem at the test fixture: exactly one PDR message, decoding to
the fixture's PDR name. -/
theorem handler_publishes_single_pdr_witness :
    ∃ res, handler testTopicConfig healthyTransport testExecutionEvent = .ok res ∧
      res.pdrMessages.length = 1 ∧
      res.pdrMessages.head?.bind decodePdrName = some "pdr-0001" :=
  handler_publishes_single_pdr testTopicConfig healthyTransport testExecutionEvent
    testCumulusMessage (.obj [("name", .str "pdr-0001")]) "pdr-0001" "pdr-topic"
    rfl rfl rfl (by decide) rfl rfl

/-- C3: when `payload.pdr` is present but its name is missing or empty, the
PDR builder fails with `InvalidPdrRecord`, yet the invocation completes
without raising and no PDR message is published. -/
theorem pdr_build_failure_isolated (cfg : TopicConfig) (tf : RecordType → Bool)
    (event : WorkflowExecutionEvent) (msg pdr : Json)
    (hev : event.input = .json msg)
    (hpdr : pdrOfMessage msg = some pdr)
    (hname : pdrNameValue pdr = none ∨ pdrNameValue pdr = some "") :
    buildPdrRecord msg = .error .InvalidPdrRecord ∧
      handler cfg tf event = .ok (publishReportSnsMessages cfg tf msg) ∧
      (publishReportSnsMessages cfg tf msg).pdrMessages = [] := by
  have hb : buildPdrRecord msg = .error .InvalidPdrRecord := by
    rcases hname with hn | hn <;> simp [buildPdrRecord, hpdr, hn]
  refine ⟨hb, handler_on_json cfg tf event msg hev, ?_⟩
  show (handlePdrMessage cfg tf msg).2 = []
  simp [handlePdrMessage, hb]

/-- The C3 theorem at the nameless-PDR fixture with every publish forced to
fail, as in the builder-isolation test. -/
theorem pdr_build_failure_isolated_witness :
    buildPdrRecord testNamelessPdrMessage = .error .InvalidPdrRecord ∧
      handler testTopicConfig faultyTransport
        { status := "RUNNING", input := .json testNamelessPdrMessage } =
        .ok (publishReportSnsMessages testTopicConfig faultyTransport testNamelessPdrMessage) ∧
      (publishReportSnsMessages testTopicConfig faultyTransport testNamelessPdrMessage).pdrMessages
        = [] :=
  pdr_build_failure_isolated testTopicConfig faultyTransport
    { status := "RUNNING", input := .json testNamelessPdrMessage }
    testNamelessPdrMessage (.obj []) rfl rfl (Or.inl rfl)

/-- C4: when the workflow message has no `payload.pdr`, the PDR builder
returns "absent" — not a record, not an error — and no message is published
to the PDR topic. -/
theorem pdr_absent_skipped (cfg : TopicConfig) (tf : RecordType → Bool)
    (event : WorkflowExecutionEvent) (msg : Json)
    (hev : event.input = .json msg)
    (hpdr : pdrOfMessage msg = none) :
    buildPdrRecord msg = .ok none ∧
      (handlePdrMessage cfg tf msg).1 = .skipped ∧
      handler cfg tf event = .ok (publishReportSnsMessages cfg tf msg) ∧
      (publishReportSnsMessages cfg tf msg).pdrMessages = [] := by
  have hb : buildPdrRecord msg = .ok none := by
    simp [buildPdrRecord, hpdr]
  refine ⟨hb, ?_, handler_on_json cfg tf event msg hev, ?_⟩
  · simp [handlePdrMessage, hb]
  · show (handlePdrMessage cfg tf msg).2 = []
    simp [handlePdrMessage, hb]

/-- The C4 theorem at the fixture with the PDR deleted from the payload. -/
theorem pdr_absent_skipped_witness :
    buildPdrRecord testNoPdrMessage = .ok none ∧
      (handlePdrMessage testTopicConfig healthyTransport testNoPdrMessage).1 = .skipped ∧
      handler testTopicConfig healthyTransport
        { status := "RUNNING", input := .json testNoPdrMessage } =
        .ok (publishReportSnsMessages testTopicConfig healthyTransport testNoPdrMessage) ∧
      (publishReportSnsMessages testTopicConfig healthyTransport testNoPdrMessage).pdrMessages
        = [] :=
  pdr_absent_skipped testTopicConfig healthyTransport
    { status := "RUNNING", input := .json testNoPdrMessage } testNoPdrMessage rfl rfl

/-- C5: a transport-level publish failure yields a failed `PublishOutcome`
for the affected record type instead of raising — for any record type and
any built record — and the overall invocation still completes without
raising. -/
theorem publish_failure_isolated (cfg : TopicConfig) (tf : RecordType → Bool)
    (event : WorkflowExecutionEvent) (msg : Json) (r : PdrRecord) (t : String)
    (hev : event.input = .json msg)
    (hbuild : buildPdrRecord msg = .ok (some r))
    (ht : cfg.pdrTopic = some t)
    (hfail : tf .pdr = true) :
    (∀ (rt : RecordType) (record : Json) (t' : String), topicFor cfg rt = some t' →
      tf rt = true →
      publishRecord cfg tf rt record =
        (.published { recordType := rt, succeeded := false, error := some .PublishFailure }, [])) ∧
    handlePdrMessage cfg tf msg =
      (.published { recordType := .pdr, succeeded := false, error := some .PublishFailure }, []) ∧
    handler cfg tf event = .ok (publishReportSnsMessages cfg tf msg) := by
  refine ⟨?_, ?_, handler_on_json cfg tf event msg hev⟩
  · intro rt record t' ht' hf
    simp [publishRecord, ht', hf]
  · simp [handlePdrMessage, hbuild, publishRecord, topicFor, ht, hfail]

/-- The C5 theorem at the test fixture with the transport forced to fail. -/
theorem publish_failure_isolated_witness :
    handlePdrMessage testTopicConfig faultyTransport testCumulusMessage =
      (.published { recordType := .pdr, succeeded := false, error := some .PublishFailure }, []) ∧
    handler testTopicConfig faultyTransport testExecutionEvent =
      .ok (publishReportSnsMessages testTopicConfig faultyTransport testCumulusMessage) :=
  (publish_failure_isolated testTopicConfig faultyTransport testExecutionEvent
    testCumulusMessage testBuiltPdrRecord "pdr-topic" rfl rfl rfl rfl).2

/-- C8: the wire envelope's `Message` field holds the serialized domain
record, and deserializing a received body and then its `Message` field
recovers the record — in particular its `pdrName`; every message the PDR
branch publishes has this shape. -/
theorem pdr_wire_envelope_roundtrip :
    (∀ r : PdrRecord,
      (snsEnvelope r.toJson).getField "Message" = some r.toJson ∧
        pdrRecordOfJson r.toJson = some r ∧
        decodePdrName (snsEnvelope r.toJson) = some r.pdrName) ∧
    (∀ cfg tf msg, ∀ m ∈ (handlePdrMessage cfg tf msg).2,
      ∃ r : PdrRecord, buildPdrRecord msg = .ok (some r) ∧ m = snsEnvelope r.toJson ∧
        decodePdrName m = some r.pdrName) := by
  have hpart1 : ∀ r : PdrRecord,
      (snsEnvelope r.toJson).getField "Message" = some r.toJson ∧
        pdrRecordOfJson r.toJson = some r ∧
        decodePdrName (snsEnvelope r.toJson) = some r.pdrName := by
    intro r
    refine ⟨by simp [snsEnvelope, Json.getField, lookupField], pdrRecord_roundTrip r, ?_⟩
    simp [decodePdrName, snsEnvelope, Json.getField, lookupField, pdrRecord_roundTrip r]
  refine ⟨hpart1, ?_⟩
  intro cfg tf msg m hm
  unfold handlePdrMessage at hm
  cases hb : buildPdrRecord msg with
  | error e => rw [hb] at hm; simp at hm
  | ok o =>
    cases o with
    | none => rw [hb] at hm; simp at hm
    | some r =>
      rw [hb] at hm
      unfold publishRecord at hm
      cases ht : topicFor cfg .pdr with
      | none => rw [ht] at hm; simp at hm
      | some t =>
        rw [ht] at hm
        by_cases hf : tf .pdr = true
        · simp [hf] at hm
        · simp [hf] at hm
          exact ⟨r, rfl, hm, hm ▸ (hpart1 r).2.2⟩

/-- The C8 theorem at the concrete message the healthy-transport fixture
publishes. -/
theorem pdr_wire_envelope_roundtrip_witness :
    ∃ r : PdrRecord, buildPdrRecord testCumulusMessage = .ok (some r) ∧
      (handlePdrMessage testTopicConfig healthyTransport testCumulusMessage).2.head! =
        snsEnvelope r.toJson ∧
      decodePdrName
        (handlePdrMessage testTopicConfig healthyTransport testCumulusMessage).2.head! =
        some r.pdrName :=
  pdr_wire_envelope_roundtrip.2 testTopicConfig healthyTransport testCumulusMessage
    (handlePdrMessage testTopicConfig healthyTransport testCumulusMessage).2.head!
    (List.mem_singleton.mpr rfl)

/-- The arn of a successfully built execution record is the derivation from
the message's state machine and execution name. -/
theorem buildExecutionRecord_arn (m : Json) (r : ExecutionRecord) (sm en : String)
    (hsm : stateMachineOf m = some sm) (hen : executionNameOf m = some en)
    (h : buildExecutionRecord m = .ok r) : r.arn = getExecutionArn sm en := by
  simp [buildExecutionRecord, hsm, hen] at h
  rw [← h]

/-- The execution record the builder derives from the test message. -/
def testBuiltExecutionRecord : ExecutionRecord :=
  { arn := getExecutionArn testStateMachine "exec-123"
    status := none
    collectionRef := none
    asyncOperationRef := none
    parentExecutionRef := none }

/-- C7: the execution ARN is a deterministic function of
`cumulus_meta.state_machine` and `cumulus_meta.execution_name` — records
built from messages agreeing on those two fields carry bit-for-bit the same
ARN — and on the spec's concrete pair the derivation matches the external
workflow engine's ARN composition rule. -/
theorem execution_arn_deterministic :
    (∀ m1 m2 r1 r2, buildExecutionRecord m1 = .ok r1 → buildExecutionRecord m2 = .ok r2 →
      stateMachineOf m1 = stateMachineOf m2 → executionNameOf m1 = executionNameOf m2 →
      r1.arn = r2.arn) ∧
    getExecutionArn testStateMachine "exec-123" =
      engineExecutionArnRule "us-east-1" "111122223333" "HelloWorld-StateMachine" "exec-123" := by
  constructor
  · intro m1 m2 r1 r2 h1 h2 hsm hen
    cases hs1 : stateMachineOf m1 with
    | none =>
      cases he1 : executionNameOf m1 <;> simp [buildExecutionRecord, hs1, he1] at h1
    | some sm =>
      cases he1 : executionNameOf m1 with
      | none => simp [buildExecutionRecord, hs1, he1] at h1
      | some en =>
        rw [buildExecutionRecord_arn m1 r1 sm en hs1 he1 h1,
          buildExecutionRecord_arn m2 r2 sm en (hsm ▸ hs1) (hen ▸ he1) h2]
  · decide

/-- The C7 theorem at two fixture messages sharing `cumulus_meta` but
differing in payload: the derived ARNs coincide. -/
theorem execution_arn_deterministic_witness :
    buildExecutionRecord testCumulusMessage = .ok testBuiltExecutionRecord ∧
      buildExecutionRecord testNoPdrMessage = .ok testBuiltExecutionRecord ∧
      testBuiltExecutionRecord.arn = testBuiltExecutionRecord.arn :=
  ⟨rfl, rfl,
    execution_arn_deterministic.1 testCumulusMessage testNoPdrMessage
      testBuiltExecutionRecord testBuiltExecutionRecord rfl rfl rfl rfl⟩

/-- C10: on an event whose input is the serialization of a workflow message,
the handler, `publishReportSnsMessages` on the message, and
`handlePdrMessage` on the message agree on the PDR branch outcome and on the
messages delivered to the PDR topic. -/
theorem entry_points_agree_on_pdr (cfg : TopicConfig) (tf : RecordType → Bool)
    (event : WorkflowExecutionEvent) (msg : Json)
    (hev : event.input = .json msg) :
    ∃ res, handler cfg tf event = .ok res ∧
      res.pdrResult = (publishReportSnsMessages cfg tf msg).pdrResult ∧
      res.pdrMessages = (publishReportSnsMessages cfg tf msg).pdrMessages ∧
      (publishReportSnsMessages cfg tf msg).pdrResult = (handlePdrMessage cfg tf msg).1 ∧
      (publishReportSnsMessages cfg tf msg).pdrMessages = (handlePdrMessage cfg tf msg).2 :=
  ⟨publishReportSnsMessages cfg tf msg, handler_on_json cfg tf event msg hev,
    rfl, rfl, rfl, rfl⟩

/-- The C10 theorem at the test fixture. -/
theorem entry_points_agree_on_pdr_witness :
    ∃ res, handler testTopicConfig healthyTransport testExecutionEvent = .ok res ∧
      res.pdrResult =
        (publishReportSnsMessages testTopicConfig healthyTransport testCumulusMessage).pdrResult ∧
      res.pdrMessages =
        (publishReportSnsMessages testTopicConfig healthyTransport
          testCumulusMessage).pdrMessages ∧
      (publishReportSnsMessages testTopicConfig healthyTransport
        testCumulusMessage).pdrResult =
        (handlePdrMessage testTopicConfig healthyTransport testCumulusMessage).1 ∧
      (publishReportSnsMessages testTopicConfig healthyTransport
        testCumulusMessage).pdrMessages =
        (handlePdrMessage testTopicConfig healthyTransport testCumulusMessage).2 :=
  entry_points_agree_on_pdr testTopicConfig healthyTransport testExecutionEvent
    testCumulusMessage rfl

/-- Rows pairwise distinct on a key are pairwise distinct. -/
theorem pairwiseDistinctOn_pairwise (key : SqlRow → List (Option SqlValue))
    (rows : List SqlRow) (h : pairwiseDistinctOn key rows = true) :
    List.Pairwise (fun r1 r2 => key r1 ≠ key r2) rows := by
  induction rows with
  | nil => exact List.Pairwise.nil
  | cons r rs ih =>
    rw [pairwiseDistinctOn, Bool.and_eq_true, List.all_eq_true] at h
    refine List.Pairwise.cons (fun r2 hr2 => ?_) (ih h.2)
    have := h.1 r2 hr2
    simpa using this

/-- A row of the `executions` table with every nullable foreign key NULL. -/
def exampleExecRow1 : SqlRow :=
  { cells :=
      [ ("cumulusId", some (.int 1))
      , ("arn", some (.text "arn:aws:states:us-east-1:111122223333:execution:HelloWorld-StateMachine:exec-123"))
      , ("asyncOperationsCumulusId", none)
      , ("collectionCumulusId", none)
      , ("parentCumulusId", none)
      , ("created_at", some (.int 0))
      , ("updated_at", some (.int 0)) ] }

/-- A child row whose parent reference points at the first row. -/
def exampleExecRow2 : SqlRow :=
  { cells :=
      [ ("cumulusId", some (.int 2))
      , ("arn", some (.text "arn:aws:states:us-east-1:111122223333:execution:HelloWorld-StateMachine:exec-456"))
      , ("asyncOperationsCumulusId", none)
      , ("collectionCumulusId", none)
      , ("parentCumulusId", some (.int 1))
      , ("created_at", some (.int 0))
      , ("updated_at", some (.int 0)) ] }

/-- A two-row population of the `executions` table. -/
def exampleExecRows : List SqlRow := [exampleExecRow1, exampleExecRow2]

/-- A database holding only the example `executions` rows. -/
def exampleDb : String → List SqlRow :=
  fun t => if t = "executions" then exampleExecRows else []

/-- C9: the migration's `executions` table declares `arn` NOT NULL and
unique, and the async-operation, collection, and parent-execution references
as nullable foreign keys, the parent one pointing back into `executions`
itself; consequently, in every valid population every row has a non-null
ARN, ARNs are pairwise distinct, and every non-null parent reference points
at the id of some row of the same table. -/
theorem executions_table_constraints :
    SchemaColumn executionsTable "arn" = some
      { name := "arn", type := .text, notNullable := true, references := none } ∧
    ["arn"] ∈ executionsTable.uniques ∧
    SchemaColumn executionsTable "asyncOperationsCumulusId" = some
      { name := "asyncOperationsCumulusId", type := .integer, notNullable := false
      , references := some ("cumulusId", "asyncOperations") } ∧
    SchemaColumn executionsTable "collectionCumulusId" = some
      { name := "collectionCumulusId", type := .integer, notNullable := false
      , references := some ("cumulusId", "collections") } ∧
    SchemaColumn executionsTable "parentCumulusId" = some
      { name := "parentCumulusId", type := .integer, notNullable := false
      , references := some ("cumulusId", executionsTable.name) } ∧
    (∀ db rows, validExecutionsTable db rows →
      (∀ r ∈ rows, (r.get "arn").isSome = true) ∧
      List.Pairwise (fun r1 r2 => r1.get "arn" ≠ r2.get "arn") rows ∧
      (∀ r ∈ rows, ∀ v, r.get "parentCumulusId" = some v →
        ∃ r2 ∈ rows, r2.get "cumulusId" = some v)) := by
  refine ⟨by decide, by decide, by decide, by decide, by decide, ?_⟩
  rintro db rows ⟨hdb, hnn, hfk, huniq⟩
  rw [List.all_eq_true] at hnn hfk
  refine ⟨?_, ?_, ?_⟩
  · intro r hr
    have h1 := hnn r hr
    rw [rowRespectsNotNull, List.all_eq_true] at h1
    have h2 := h1
      { name := "arn", type := .text, notNullable := true, references := none } (by decide)
    simpa using h2
  · rw [tableRespectsUniques, List.all_eq_true] at huniq
    have hp := pairwiseDistinctOn_pairwise _ rows (huniq ["arn"] (by decide))
    exact hp.imp (fun h heq => h (by simp [heq]))
  · intro r hr v hv
    have h1 := hfk r hr
    rw [rowRespectsFks, List.all_eq_true] at h1
    have h2 := h1
      { name := "parentCumulusId", type := .integer, notNullable := false
      , references := some ("cumulusId", "executions") } (by decide)
    simp only [hv] at h2
    rw [hdb, List.any_eq_true] at h2
    obtain ⟨r2, hr2, hp⟩ := h2
    exact ⟨r2, hr2, by simpa using hp⟩

/-- The C9 theorem at a concrete valid two-row population: a parent with all
foreign keys NULL and a child referencing it. -/
theorem executions_table_constraints_witness :
    validExecutionsTable exampleDb exampleExecRows ∧
      (∀ r ∈ exampleExecRows, (r.get "arn").isSome = true) ∧
      List.Pairwise (fun r1 r2 => r1.get "arn" ≠ r2.get "arn") exampleExecRows ∧
      (∀ r ∈ exampleExecRows, ∀ v, r.get "parentCumulusId" = some v →
        ∃ r2 ∈ exampleExecRows, r2.get "cumulusId" = some v) :=
  have hv : validExecutionsTable exampleDb exampleExecRows := by
    unfold validExecutionsTable
    exact ⟨rfl, by decide, by decide, by decide⟩
  ⟨hv, executions_table_constraints.2.2.2.2.2 exampleDb exampleExecRows hv⟩
